import Mathlib

/-!
Verification of the teleprompter core of the tfm-web repository.

The browser-side teleprompter engine is shallowly embedded here:
pure helpers (`countWords`, `buildLineMeta`, `findCurrentLineIndex`) become
Lean functions over `String`, `List` and `ℚ` (JS numbers are modelled as
rationals); the stateful capture-session handlers become explicit state
transition functions on record types that mirror the React refs and state
of each page variant; the per-frame canvas drawing is modelled as the list
of paint operations a frame emits, each tagged with the horizontal affine
transform active when the operation runs.
-/

namespace TfmWeb

/-! ## Script tokenizer (pages/teleprompter.tsx, lines 42-80) -/

/-- Word character of the JS regex class `\w`: ASCII alphanumeric or underscore. -/
def isWordChar (c : Char) : Bool :=
  c.isAlphanum || c = '_'

/-- Character matched by the class `[\w’'-]` of the word-count regex. -/
def isClassChar (c : Char) : Bool :=
  isWordChar c || c = '\'' || c = '’' || c = '-'

/-- Scan for matches of `/\b[\w’'-]+\b/gi`: a global match exists exactly once per
maximal run of class characters containing at least one `\w` character (the word
boundaries force the match to start at the first `\w` char of the run and to end
after the last one, and the leftover pieces of the run cannot match again).
The boolean state records whether the current class run has already produced a match. -/
def countWordsAux : List Char → Bool → Nat
  | [], _ => 0
  | c :: rest, inRun =>
    if isClassChar c then
      if isWordChar c && !inRun then countWordsAux rest true + 1
      else countWordsAux rest inRun
    else countWordsAux rest false

/-- Number of matches of `/\b[\w’'-]+\b/gi` in `s` (source `countWords`). -/
def countWords (s : String) : Nat :=
  countWordsAux s.data false

/-- Split on the separator regex `/\r?\n/`: a `\n`, optionally preceded by `\r`,
ends a field; a lone `\r` stays inside the field. -/
def splitLinesAux : List Char → List Char → List String
  | [], acc => [String.mk acc.reverse]
  | '\r' :: '\n' :: rest, acc => String.mk acc.reverse :: splitLinesAux rest []
  | '\n' :: rest, acc => String.mk acc.reverse :: splitLinesAux rest []
  | c :: rest, acc => splitLinesAux rest (c :: acc)

/-- JS `String.prototype.trimEnd`: drop trailing whitespace. -/
def trimEndJS (s : String) : String :=
  String.mk (s.data.reverse.dropWhile Char.isWhitespace).reverse

/-- The `rawLines` computed at the top of `buildLineMeta`:
`script.split(/\r?\n/).map(l => l.trimEnd()).filter(l => l.length > 0)`. -/
def rawLinesOf (script : String) : List String :=
  ((splitLinesAux script.data []).map trimEndJS).filter fun l => decide (0 < l.length)

/-- Result record of `buildLineMeta`. -/
structure LineMeta where
  lines : List String
  wordsPerLine : List Nat
  totalWords : Nat
  cumulativeWords : List Nat
deriving DecidableEq

/-- The accumulation loop of `buildLineMeta`: starting from the running total
`acc`, return the final total and the list of cumulative totals, one per entry. -/
def buildScan (acc : Nat) : List Nat → Nat × List Nat
  | [] => (acc, [])
  | w :: ws =>
    let t := acc + w
    let r := buildScan t ws
    (r.1, t :: r.2)

/-- Source `buildLineMeta` (pages/teleprompter.tsx lines 48-80): trimmed non-blank
lines, per-line word count floored at 1, running and final totals; an all-blank
script yields the single placeholder line with word count 1. -/
def buildLineMeta (script : String) : LineMeta :=
  let rawLines := rawLinesOf script
  if rawLines = [] then
    ⟨[("")], [1], 1, [1]⟩
  else
    let wordsPerLine := rawLines.map fun l => max 1 (countWords l)
    let sc := buildScan 0 wordsPerLine
    ⟨rawLines, wordsPerLine, sc.1, sc.2⟩

/-! ## Pacing clock (pages/teleprompter.tsx, lines 82-96) -/

/-- Source `findCurrentLineIndex`: guard for an empty sequence or non-positive
rate, convert the rate to words per millisecond, scan past every cumulative
count not exceeding the spoken-word estimate, clamp to the last index. -/
def findCurrentLineIndex (elapsedMs : ℚ) (wpm : ℚ) (cumulativeWords : List Nat) : Nat :=
  if cumulativeWords.length = 0 ∨ wpm ≤ 0 then 0
  else
    let wordsPerMs := wpm / 60000
    let wordsSpoken := elapsedMs * wordsPerMs
    min (cumulativeWords.takeWhile fun c : Nat => decide ((c : ℚ) ≤ wordsSpoken)).length
      (cumulativeWords.length - 1)

/-! ## Helper lemmas about the tokenizer output -/

theorem buildScan_snd_length (acc : Nat) (ws : List Nat) :
    (buildScan acc ws).2.length = ws.length := by
  induction ws generalizing acc with
  | nil => rfl
  | cons w ws ih => simp [buildScan, ih]

theorem buildScan_fst_ge (acc : Nat) (ws : List Nat) : acc ≤ (buildScan acc ws).1 := by
  induction ws generalizing acc with
  | nil => exact le_refl acc
  | cons w ws ih =>
    have h := ih (acc + w)
    simp only [buildScan]
    omega

theorem buildScan_mem_le (acc : Nat) (ws : List Nat) :
    ∀ x ∈ (buildScan acc ws).2, x ≤ (buildScan acc ws).1 := by
  induction ws generalizing acc with
  | nil => intro x hx; simp [buildScan] at hx
  | cons w ws ih =>
    intro x hx
    simp only [buildScan, List.mem_cons] at hx
    rcases hx with h | h
    · subst h
      exact buildScan_fst_ge (acc + w) ws
    · exact ih (acc + w) x h

theorem buildScan_chain (acc : Nat) (ws : List Nat) (hws : ∀ w ∈ ws, 1 ≤ w) :
    List.Chain' (· < ·) (buildScan acc ws).2 := by
  induction ws generalizing acc with
  | nil => simp [buildScan]
  | cons w ws ih =>
    simp only [buildScan]
    refine List.chain'_cons'.2 ⟨?_, ?_⟩
    · intro y hy
      match hws' : ws, hy with
      | w' :: ws', hy =>
        simp only [buildScan, List.head?_cons, Option.mem_def, Option.some.injEq] at hy
        have hw' : 1 ≤ w' := hws w' (by simp [hws'])
        omega
    · exact ih (acc + w) fun x hx => hws x (List.mem_cons_of_mem w hx)

theorem buildScan_snd_cons (acc w : Nat) (ws : List Nat) :
    (buildScan acc (w :: ws)).2 = (acc + w) :: (buildScan (acc + w) ws).2 := rfl

theorem buildScan_fst_cons (acc w : Nat) (ws : List Nat) :
    (buildScan acc (w :: ws)).1 = (buildScan (acc + w) ws).1 := rfl

theorem buildScan_getLast (acc : Nat) (ws : List Nat) (h : ws ≠ []) :
    (buildScan acc ws).2.getLast? = some (buildScan acc ws).1 := by
  induction ws generalizing acc with
  | nil => exact absurd rfl h
  | cons w ws ih =>
    cases ws with
    | nil => simp [buildScan]
    | cons w' ws' =>
      rw [buildScan_snd_cons, buildScan_fst_cons, buildScan_snd_cons (acc + w) w' ws',
        List.getLast?_cons_cons, ← buildScan_snd_cons (acc + w) w' ws']
      exact ih (acc + w) (by simp)

theorem buildLineMeta_wordsPerLine_ge_one (script : String) :
    ∀ w ∈ (buildLineMeta script).wordsPerLine, 1 ≤ w := by
  intro w hw
  unfold buildLineMeta at hw
  by_cases h : rawLinesOf script = []
  · rw [if_pos h] at hw
    simp only [List.mem_singleton] at hw
    omega
  · rw [if_neg h] at hw
    simp only [List.mem_map] at hw
    obtain ⟨l, _, hl⟩ := hw
    omega

theorem buildLineMeta_cumulative_length (script : String) :
    (buildLineMeta script).cumulativeWords.length = (buildLineMeta script).lines.length := by
  unfold buildLineMeta
  by_cases h : rawLinesOf script = []
  · simp [h]
  · simp [h, buildScan_snd_length, List.length_map]

theorem buildLineMeta_lines_ne_nil (script : String) :
    (buildLineMeta script).lines ≠ [] := by
  unfold buildLineMeta
  by_cases h : rawLinesOf script = []
  · simp [h]
  · simp [h]

/-! ## Helper lemmas about the pacing clock -/

theorem takeWhile_le_length_mono (a b : ℚ) (hab : a ≤ b) (l : List Nat) :
    (l.takeWhile fun c : Nat => decide ((c : ℚ) ≤ a)).length ≤
      (l.takeWhile fun c : Nat => decide ((c : ℚ) ≤ b)).length := by
  induction l with
  | nil => simp
  | cons c l ih =>
    by_cases hc : (c : ℚ) ≤ a
    · have hcb : (c : ℚ) ≤ b := le_trans hc hab
      rw [List.takeWhile_cons_of_pos (by simpa using hc),
        List.takeWhile_cons_of_pos (by simpa using hcb)]
      simpa using ih
    · rw [List.takeWhile_cons_of_neg (by simpa using hc)]
      exact Nat.zero_le _

theorem takeWhile_all_eq_self (a : ℚ) (l : List Nat) (h : ∀ c ∈ l, (c : ℚ) ≤ a) :
    l.takeWhile (fun c : Nat => decide ((c : ℚ) ≤ a)) = l := by
  induction l with
  | nil => rfl
  | cons c l ih =>
    have hc : (c : ℚ) ≤ a := h c (List.mem_cons_self c l)
    rw [List.takeWhile_cons_of_pos (by simpa using hc),
      ih fun x hx => h x (List.mem_cons_of_mem c hx)]

theorem buildLineMeta_cumulative_le_total (script : String) :
    ∀ x ∈ (buildLineMeta script).cumulativeWords, x ≤ (buildLineMeta script).totalWords := by
  intro x hx
  unfold buildLineMeta at hx ⊢
  by_cases h : rawLinesOf script = []
  · rw [if_pos h] at hx ⊢
    simp only [List.mem_singleton] at hx
    exact le_of_eq hx
  · rw [if_neg h] at hx ⊢
    exact buildScan_mem_le 0 _ x hx

/-! ## Claim theorems for the tokenizer and the pacing clock -/

/-- Claim C1: for every cumulative-word-count sequence produced by the tokenizer,
every non-negative elapsed time and every rate above zero, `findCurrentLineIndex`
returns an index strictly below the number of lines, and once the spoken-word
estimate exceeds the total word count it returns the last line's index. -/
theorem claim_C1 (script : String) (elapsedMs wpm : ℚ)
    (_helapsed : 0 ≤ elapsedMs) (hwpm : 0 < wpm) :
    findCurrentLineIndex elapsedMs wpm (buildLineMeta script).cumulativeWords <
      (buildLineMeta script).lines.length ∧
    (((buildLineMeta script).totalWords : ℚ) < elapsedMs * (wpm / 60000) →
      findCurrentLineIndex elapsedMs wpm (buildLineMeta script).cumulativeWords =
        (buildLineMeta script).lines.length - 1) := by
  have hlen : (buildLineMeta script).cumulativeWords.length =
      (buildLineMeta script).lines.length := buildLineMeta_cumulative_length script
  have hpos : 0 < (buildLineMeta script).lines.length :=
    List.length_pos.2 (buildLineMeta_lines_ne_nil script)
  have hguard : ¬((buildLineMeta script).cumulativeWords.length = 0 ∨ wpm ≤ 0) := by
    push_neg
    exact ⟨by omega, hwpm⟩
  constructor
  · unfold findCurrentLineIndex
    rw [if_neg hguard]
    exact lt_of_le_of_lt (min_le_right _ _) (by omega)
  · intro hspoken
    have hall : ∀ c ∈ (buildLineMeta script).cumulativeWords,
        (c : ℚ) ≤ elapsedMs * (wpm / 60000) := by
      intro c hc
      have h1 : c ≤ (buildLineMeta script).totalWords :=
        buildLineMeta_cumulative_le_total script c hc
      have h2 : (c : ℚ) ≤ ((buildLineMeta script).totalWords : ℚ) := by exact_mod_cast h1
      exact le_of_lt (lt_of_le_of_lt h2 hspoken)
    unfold findCurrentLineIndex
    rw [if_neg hguard]
    show min ((buildLineMeta script).cumulativeWords.takeWhile fun c : Nat =>
        decide ((c : ℚ) ≤ elapsedMs * (wpm / 60000))).length
      ((buildLineMeta script).cumulativeWords.length - 1) =
      (buildLineMeta script).lines.length - 1
    rw [takeWhile_all_eq_self _ _ hall, min_eq_right (Nat.sub_le _ _), hlen]

/-- Witness for C1 at a concrete script, elapsed time and rate. -/
theorem claim_C1_witness :
    (0 : ℚ) ≤ 600000 ∧ (0 : ℚ) < 105 ∧
    ((buildLineMeta ("Line one two\nthree four")).totalWords : ℚ) < 600000 * (105 / 60000) ∧
    findCurrentLineIndex 600000 105 (buildLineMeta ("Line one two\nthree four")).cumulativeWords =
      (buildLineMeta ("Line one two\nthree four")).lines.length - 1 := by
  have ht : (buildLineMeta ("Line one two\nthree four")).totalWords = 5 := by decide
  have hsp : ((buildLineMeta ("Line one two\nthree four")).totalWords : ℚ) <
      600000 * (105 / 60000) := by
    rw [ht]; norm_num
  exact ⟨by norm_num, by norm_num, hsp,
    (claim_C1 ("Line one two\nthree four") 600000 105 (by norm_num) (by norm_num)).2 hsp⟩

/-- Claim C2: with the cumulative sequence and the rate fixed,
`findCurrentLineIndex` is monotone in elapsed time. -/
theorem claim_C2 (cumulativeWords : List Nat) (elapsed1 elapsed2 wpm : ℚ)
    (h : elapsed1 < elapsed2) :
    findCurrentLineIndex elapsed1 wpm cumulativeWords ≤
      findCurrentLineIndex elapsed2 wpm cumulativeWords := by
  unfold findCurrentLineIndex
  by_cases hg : cumulativeWords.length = 0 ∨ wpm ≤ 0
  · rw [if_pos hg, if_pos hg]
  · rw [if_neg hg, if_neg hg]
    push_neg at hg
    have hwpm : 0 < wpm := hg.2
    have hmul : elapsed1 * (wpm / 60000) ≤ elapsed2 * (wpm / 60000) := by
      have hq : (0 : ℚ) < wpm / 60000 := by positivity
      exact mul_le_mul_of_nonneg_right (le_of_lt h) (le_of_lt hq)
    exact min_le_min (takeWhile_le_length_mono _ _ hmul _) (le_refl _)

/-- Witness for C2 at a concrete sequence, rate and pair of elapsed times. -/
theorem claim_C2_witness :
    (1000 : ℚ) < 3000 ∧
    findCurrentLineIndex 1000 60 [2, 4, 6] ≤ findCurrentLineIndex 3000 60 [2, 4, 6] :=
  ⟨by norm_num, claim_C2 [2, 4, 6] 1000 3000 60 (by norm_num)⟩

/-- Claim C3: `buildLineMeta` keeps exactly the non-blank trimmed lines, in
order (one per non-blank input line); an all-blank or empty input yields the
placeholder line with word count 1; every per-line word count is at least 1. -/
theorem claim_C3 (script : String) :
    (buildLineMeta script).lines =
      (if rawLinesOf script = [] then [("")] else rawLinesOf script) ∧
    (buildLineMeta script).lines.length = max 1 (rawLinesOf script).length ∧
    (buildLineMeta script).wordsPerLine =
      (if rawLinesOf script = [] then [1] else
        (rawLinesOf script).map fun l => max 1 (countWords l)) ∧
    (buildLineMeta script).wordsPerLine.all (fun w => decide (1 ≤ w)) = true := by
  refine ⟨?_, ?_, ?_, ?_⟩
  · unfold buildLineMeta
    by_cases h : rawLinesOf script = [] <;> simp [h]
  · unfold buildLineMeta
    by_cases h : rawLinesOf script = []
    · simp [h]
    · have : 0 < (rawLinesOf script).length := List.length_pos.2 h
      simp only [if_neg h]
      omega
  · unfold buildLineMeta
    by_cases h : rawLinesOf script = [] <;> simp [h]
  · exact List.all_eq_true.2 fun w hw => by
      simpa using buildLineMeta_wordsPerLine_ge_one script w hw

/-- Claim C4: the cumulative word counts are strictly increasing, their last
entry is the total word count, and the total is at least 1. -/
theorem claim_C4 (script : String) :
    (buildLineMeta script).cumulativeWords.Pairwise (· < ·) ∧
    (buildLineMeta script).cumulativeWords.getLast? =
      some (buildLineMeta script).totalWords ∧
    1 ≤ (buildLineMeta script).totalWords := by
  refine ⟨List.chain'_iff_pairwise.1 ?_, ?_, ?_⟩
  · unfold buildLineMeta
    by_cases h : rawLinesOf script = []
    · simp [h]
    · rw [if_neg h]
      refine buildScan_chain 0 _ ?_
      intro w hw
      simp only [List.mem_map] at hw
      obtain ⟨l, _, hl⟩ := hw
      omega
  · unfold buildLineMeta
    by_cases h : rawLinesOf script = []
    · simp [h]
    · rw [if_neg h]
      refine buildScan_getLast 0 _ ?_
      simp [h]
  · unfold buildLineMeta
    by_cases h : rawLinesOf script = []
    · simp [h]
    · rw [if_neg h]
      cases hr : rawLinesOf script with
      | nil => exact absurd hr h
      | cons l ls =>
        simp only [List.map_cons, buildScan_fst_cons]
        have := buildScan_fst_ge (0 + max 1 (countWords l)) (ls.map fun l => max 1 (countWords l))
        omega

/-! ## Capture session state of the main page (pages/teleprompter.tsx)

The React state and refs relevant to the session are collected into one
record; booleans model whether a handle is held (`mediaRecorderRef`,
the camera tracks on the hidden video element, the recorder's audio
stream, a blob URL) and whether the error banner text is non-empty.
Timestamps are rationals (milliseconds). -/

/-- Source `RecState`: "idle" | "recording" | "paused" | "finished". -/
inductive RecState where
  | idle
  | recording
  | paused
  | finished
deriving DecidableEq

/-- Session-relevant state of `TeleprompterInner` in pages/teleprompter.tsx. -/
structure TeleState where
  recState : RecState
  startTs : ℚ
  pauseOffset : ℚ
  lastPauseStart : Option ℚ
  hasRecorder : Bool
  camOn : Bool
  holdsAudio : Bool
  hasDownloadUrl : Bool
  hasError : Bool
deriving DecidableEq

/-- Source `handlePauseResume` (pages/teleprompter.tsx lines 406-425; identical
in the part_005 variant lines 473-492): no-op without a recorder; from
recording, pause the recorder and stamp the pause start; from paused, resume
and add the pause delta to the offset exactly once, clearing the stamp. -/
def handlePauseResume (now : ℚ) (s : TeleState) : TeleState :=
  if s.hasRecorder = false then s
  else if s.recState = RecState.recording then
    { s with recState := RecState.paused, lastPauseStart := some now }
  else if s.recState = RecState.paused then
    match s.lastPauseStart with
    | some p =>
      { s with recState := RecState.recording,
               pauseOffset := s.pauseOffset + (now - p),
               lastPauseStart := none }
    | none => { s with recState := RecState.recording }
  else s

/-- Timing part of `drawFrame` (pages/teleprompter.tsx lines 192-207): the frame
both reads and repairs the timing refs, so the model returns the updated state
together with the computed elapsed active time. -/
def drawElapsed (now : ℚ) (totalWords : Nat) (wpm : ℚ) (s : TeleState) : TeleState × ℚ :=
  if s.recState = RecState.recording then
    let s1 := if s.startTs = 0 then { s with startTs := now } else s
    (s1, now - s1.startTs - s1.pauseOffset)
  else if s.recState = RecState.paused ∧ s.startTs ≠ 0 then
    let s1 := if s.lastPauseStart = none then { s with lastPauseStart := some now } else s
    (s1, s1.lastPauseStart.getD now - s1.startTs - s1.pauseOffset)
  else if s.recState = RecState.finished then
    (s, (totalWords : ℚ) / wpm * 60000)
  else
    (s, 0)

/-- Source `handleStart` (pages/teleprompter.tsx lines 340-404): bail out only
while recording; otherwise revoke any previous download URL, clear the buffered
chunks and the timing refs, then capture the canvas, request the microphone and
start a recorder. `canvasReady` models a non-null canvas ref and `deviceOk`
a successful `getUserMedia`; on either failure the catch block publishes the
error, stops the video element's tracks and the recorder, and returns to idle.
(A still-attached paused recorder would be overwritten on the success path;
its asynchronous `onstop` never fires and is not modelled.) -/
def handleStartMain (canvasReady deviceOk : Bool) (s : TeleState) : TeleState :=
  if s.recState = RecState.recording then s
  else
    let s1 : TeleState :=
      { s with hasError := false, hasDownloadUrl := false,
               startTs := 0, pauseOffset := 0, lastPauseStart := none }
    if canvasReady && deviceOk then
      { s1 with holdsAudio := true, hasRecorder := true, recState := RecState.recording }
    else
      { s1 with hasError := true, camOn := false,
                hasRecorder := false, recState := RecState.idle }

/-- Source `handleStop` (pages/teleprompter.tsx lines 427-431): return
immediately when no recorder is attached, otherwise stop and drop it (the
recorder's asynchronous `onstop` callback is what later assembles the blob). -/
def handleStopMain (s : TeleState) : TeleState :=
  if s.hasRecorder = false then s
  else { s with hasRecorder := false }

/-! ## Capture session state of the part_005 page variant -/

/-- Session-relevant state of the part_005 variant (same refs as the main page
plus the `sessionComplete` flag). -/
structure Tele5State where
  recState : RecState
  startTs : ℚ
  pauseOffset : ℚ
  lastPauseStart : Option ℚ
  hasRecorder : Bool
  camOn : Bool
  holdsAudio : Bool
  hasDownloadUrl : Bool
  hasError : Bool
  sessionComplete : Bool
deriving DecidableEq

/-- Source `stopTracks` of part_005 (lines 160-167): stop and detach the video
element's camera tracks. -/
def stopTracks5 (s : Tele5State) : Tele5State :=
  { s with camOn := false }

/-- Source `stopMediaRecorder` of part_005 (lines 364-374): stop and drop the
recorder, then stop the camera tracks. -/
def stopMediaRecorder5 (s : Tele5State) : Tele5State :=
  stopTracks5 { s with hasRecorder := false }

/-- Catch block of part_005's `handleStart` (lines 465-470): publish the error,
stop recorder and tracks, return to idle. -/
def startCatch5 (s : Tele5State) : Tele5State :=
  { stopMediaRecorder5 s with hasError := true, recState := RecState.idle }

/-- Source `handleStart` of part_005 (lines 376-471): bail out only while
recording; report unsupported recording and stop if `MediaRecorder` is absent;
otherwise revoke the previous URL, reset chunks and timing refs, attach the
camera, capture the canvas, request the default microphone and start the
recorder; any failure goes through the catch block. -/
def handleStart5 (supported canvasReady camOk micOk : Bool) (s : Tele5State) : Tele5State :=
  if s.recState = RecState.recording then s
  else
    let s0 := { s with hasError := false, sessionComplete := false }
    if supported = false then { s0 with hasError := true }
    else
      let s1 := { s0 with hasDownloadUrl := false,
                          startTs := 0, pauseOffset := 0, lastPauseStart := none }
      if canvasReady = false then startCatch5 s1
      else if camOk = false then startCatch5 s1
      else
        let s2 := { s1 with camOn := true }
        if micOk = false then startCatch5 s2
        else { s2 with holdsAudio := true, hasRecorder := true,
                       recState := RecState.recording }

/-- Source `handleStop` of part_005 (lines 494-504): with no recorder attached
it stops the camera tracks and forces the finished/complete state; with a
recorder it stops it (the asynchronous `onstop` then assembles the blob). -/
def handleStop5 (s : Tele5State) : Tele5State :=
  if s.hasRecorder = false then
    { stopTracks5 s with recState := RecState.finished, sessionComplete := true }
  else
    stopMediaRecorder5 s

/-! ## Capture session state of the part_004 page variant -/

/-- Source `RecorderState` of part_004:
"idle" | "countdown" | "recording" | "paused" | "finishing". -/
inductive Rec4State where
  | idle
  | countdown
  | recording
  | paused
  | finishing
deriving DecidableEq

/-- Session-relevant state of the part_004 variant. -/
structure Tele4State where
  recState : Rec4State
  startTs : ℚ
  pausedAt : ℚ
  hasRecorder : Bool
  holdsMic : Bool
  hasDownloadUrl : Bool
  hasMp4Url : Bool
  hasError : Bool
  permError : Bool
deriving DecidableEq

/-- Source `handleStart` of part_004 (lines 451-473): return unless the state
is exactly idle; otherwise revoke both URLs, clear the messages, run the
countdown into the recording state and call `startRecording`, which acquires
the microphone (setting `permError` and throwing, unhandled, on failure) and
otherwise starts the recorder and stamps the timing anchor at `now`. -/
def handleStart4 (now : ℚ) (micOk : Bool) (s : Tele4State) : Tele4State :=
  if s.recState = Rec4State.idle then
    let s1 := { s with hasDownloadUrl := false, hasMp4Url := false,
                       hasError := false, permError := false }
    if micOk = false then
      { s1 with permError := true, recState := Rec4State.recording }
    else
      { s1 with holdsMic := true, hasRecorder := true,
                recState := Rec4State.recording, startTs := now, pausedAt := 0 }
  else s

/-! ## Claim theorems for the capture session -/

/-- Claim C5: pausing at `tp` and resuming at `tr` adds the pause interval to
the offset exactly once and clears the stamp; with zero real time between the
two instants the state — and hence the computed elapsed active time of every
later frame — is exactly as if the session had never paused. -/
theorem claim_C5 (s : TeleState) (tp tr : ℚ)
    (hrec : s.recState = RecState.recording)
    (hmr : s.hasRecorder = true)
    (hnopause : s.lastPauseStart = none) :
    (handlePauseResume tr (handlePauseResume tp s)).pauseOffset =
      s.pauseOffset + (tr - tp) ∧
    (handlePauseResume tr (handlePauseResume tp s)).lastPauseStart = none ∧
    (handlePauseResume tr (handlePauseResume tp s)).recState = RecState.recording ∧
    (tr = tp →
      ∀ (now : ℚ) (totalWords : Nat) (wpm : ℚ),
        drawElapsed now totalWords wpm (handlePauseResume tr (handlePauseResume tp s)) =
          drawElapsed now totalWords wpm s) := by
  have hs1 : handlePauseResume tp s =
      { s with recState := RecState.paused, lastPauseStart := some tp } := by
    unfold handlePauseResume
    rw [if_neg (by simp [hmr]), if_pos hrec]
  have hs2 : handlePauseResume tr (handlePauseResume tp s) =
      { s with recState := RecState.recording,
               pauseOffset := s.pauseOffset + (tr - tp), lastPauseStart := none } := by
    rw [hs1]
    unfold handlePauseResume
    simp [hmr]
  refine ⟨by rw [hs2], by rw [hs2], by rw [hs2], ?_⟩
  intro heq now totalWords wpm
  have hstate : handlePauseResume tr (handlePauseResume tp s) = s := by
    rw [hs2, heq]
    cases s
    simp_all
  rw [hstate]

/-- Witness for C5 at a concrete recording state and pause/resume instants. -/
theorem claim_C5_witness :
    (handlePauseResume 8000 (handlePauseResume 7000
        ⟨RecState.recording, 5000, 0, none, true, true, true, false, false⟩)).pauseOffset =
      0 + (8000 - 7000) ∧
    (handlePauseResume 8000 (handlePauseResume 7000
        ⟨RecState.recording, 5000, 0, none, true, true, true, false, false⟩)).lastPauseStart =
      none ∧
    (handlePauseResume 8000 (handlePauseResume 7000
        ⟨RecState.recording, 5000, 0, none, true, true, true, false, false⟩)).recState =
      RecState.recording :=
  ⟨(claim_C5 ⟨RecState.recording, 5000, 0, none, true, true, true, false, false⟩
      7000 8000 rfl rfl rfl).1,
   (claim_C5 ⟨RecState.recording, 5000, 0, none, true, true, true, false, false⟩
      7000 8000 rfl rfl rfl).2.1,
   (claim_C5 ⟨RecState.recording, 5000, 0, none, true, true, true, false, false⟩
      7000 8000 rfl rfl rfl).2.2.1⟩

/-- Counterexample for C6: in the main page, invoking `handleStart` from the
finished state (timing anchor at 5000, paused offset 200) starts a recorder,
resets the timing anchor and enters recording — the guard checks only for
"recording", not for idle. -/
theorem claim_C6_counterexample :
    (handleStartMain true true
        ⟨RecState.finished, 5000, 200, none, false, true, false, true, false⟩).hasRecorder
      = true ∧
    (handleStartMain true true
        ⟨RecState.finished, 5000, 200, none, false, true, false, true, false⟩).startTs = 0 ∧
    (handleStartMain true true
        ⟨RecState.finished, 5000, 200, none, false, true, false, true, false⟩).recState
      = RecState.recording := by
  refine ⟨rfl, ?_, rfl⟩
  show (0 : ℚ) = 0
  rfl

/-- Claim C6 as amended: the main page's `handleStart` ignores a start request
only while recording; the part_004 variant's `handleStart` ignores it in every
non-idle state (recording, paused, countdown, finishing), leaving the recorder
and the timing anchor untouched. -/
theorem claim_C6 (canvasReady deviceOk : Bool) :
    (∀ s : TeleState, s.recState = RecState.recording →
      handleStartMain canvasReady deviceOk s = s) ∧
    (∀ (s : Tele4State) (now : ℚ) (micOk : Bool), ¬s.recState = Rec4State.idle →
      handleStart4 now micOk s = s) := by
  constructor
  · intro s hs
    unfold handleStartMain
    rw [if_pos hs]
  · intro s now micOk hs
    unfold handleStart4
    rw [if_neg hs]

/-- Witness for C6 at concrete states: a recording main-page state and a paused
part_004 state are both left unchanged by a start request. -/
theorem claim_C6_witness :
    handleStartMain true true
        ⟨RecState.recording, 300, 0, none, true, true, true, false, false⟩ =
      ⟨RecState.recording, 300, 0, none, true, true, true, false, false⟩ ∧
    handleStart4 900 true ⟨Rec4State.paused, 300, 40, true, true, false, false, false, false⟩ =
      ⟨Rec4State.paused, 300, 40, true, true, false, false, false, false⟩ :=
  ⟨(claim_C6 true true).1 _ rfl, (claim_C6 true true).2 _ 900 true (by decide)⟩

/-- Claim C7: in both the main page and the part_005 variant, a device or
canvas failure during a start attempt publishes a user-visible error, leaves
no recorder, no camera tracks and no audio stream held, and lands in idle. -/
theorem claim_C7 :
    (∀ (s : TeleState) (canvasReady deviceOk : Bool),
      ¬s.recState = RecState.recording → s.holdsAudio = false →
      canvasReady = false ∨ deviceOk = false →
      (handleStartMain canvasReady deviceOk s).hasError = true ∧
      (handleStartMain canvasReady deviceOk s).recState = RecState.idle ∧
      (handleStartMain canvasReady deviceOk s).hasRecorder = false ∧
      (handleStartMain canvasReady deviceOk s).camOn = false ∧
      (handleStartMain canvasReady deviceOk s).holdsAudio = false) ∧
    (∀ (s : Tele5State) (canvasReady camOk micOk : Bool),
      ¬s.recState = RecState.recording → s.holdsAudio = false →
      canvasReady = false ∨ camOk = false ∨ micOk = false →
      (handleStart5 true canvasReady camOk micOk s).hasError = true ∧
      (handleStart5 true canvasReady camOk micOk s).recState = RecState.idle ∧
      (handleStart5 true canvasReady camOk micOk s).hasRecorder = false ∧
      (handleStart5 true canvasReady camOk micOk s).camOn = false ∧
      (handleStart5 true canvasReady camOk micOk s).holdsAudio = false) := by
  constructor
  · intro s canvasReady deviceOk hrec haudio hfail
    have hcd : (canvasReady && deviceOk) = false := by
      rcases hfail with h | h <;> simp [h]
    unfold handleStartMain
    rw [if_neg hrec, hcd]
    simp [haudio]
  · intro s canvasReady camOk micOk hrec haudio hfail
    unfold handleStart5
    rw [if_neg hrec]
    rcases hc : canvasReady with _ | _
    · simp [startCatch5, stopMediaRecorder5, stopTracks5, haudio]
    · rcases hcam : camOk with _ | _
      · simp [startCatch5, stopMediaRecorder5, stopTracks5, haudio]
      · rcases hm : micOk with _ | _
        · simp [startCatch5, stopMediaRecorder5, stopTracks5, haudio]
        · subst hc hcam hm
          simp at hfail

/-- Witness for C7: a failed microphone acquisition from an idle state, in both
variants, ends with the error shown, nothing held and the state idle. -/
theorem claim_C7_witness :
    (handleStartMain true false
        ⟨RecState.idle, 0, 0, none, false, true, false, false, false⟩).hasError = true ∧
    (handleStartMain true false
        ⟨RecState.idle, 0, 0, none, false, true, false, false, false⟩).recState =
      RecState.idle ∧
    (handleStart5 true true true false
        ⟨RecState.idle, 0, 0, none, false, false, false, false, false, false⟩).hasError =
      true ∧
    (handleStart5 true true true false
        ⟨RecState.idle, 0, 0, none, false, false, false, false, false, false⟩).recState =
      RecState.idle :=
  ⟨(claim_C7.1 ⟨RecState.idle, 0, 0, none, false, true, false, false, false⟩ true false
      (by decide) rfl (Or.inr rfl)).1,
   (claim_C7.1 ⟨RecState.idle, 0, 0, none, false, true, false, false, false⟩ true false
      (by decide) rfl (Or.inr rfl)).2.1,
   (claim_C7.2 ⟨RecState.idle, 0, 0, none, false, false, false, false, false, false⟩
      true true false (by decide) rfl (Or.inr (Or.inr rfl))).1,
   (claim_C7.2 ⟨RecState.idle, 0, 0, none, false, false, false, false, false, false⟩
      true true false (by decide) rfl (Or.inr (Or.inr rfl))).2.1⟩

/-- Counterexample for C8: in the part_005 variant, invoking `handleStop` in
the idle state with no recorder attached is not a no-op: it forces the state to
finished and marks the session complete. -/
theorem claim_C8_counterexample :
    handleStop5 ⟨RecState.idle, 0, 0, none, false, false, false, false, false, false⟩ ≠
      ⟨RecState.idle, 0, 0, none, false, false, false, false, false, false⟩ ∧
    (handleStop5
        ⟨RecState.idle, 0, 0, none, false, false, false, false, false, false⟩).recState =
      RecState.finished := by
  constructor
  · intro h
    have := congrArg Tele5State.recState h
    simp [handleStop5, stopTracks5] at this
  · rfl

/-- Claim C8 as amended: in the main page, stopping with no active recorder
leaves the whole state unchanged; in the part_005 variant, stopping with no
active recorder stops the camera tracks and transitions to finished with the
session marked complete, instead of leaving the state unchanged. -/
theorem claim_C8 :
    (∀ s : TeleState, s.hasRecorder = false → handleStopMain s = s) ∧
    (∀ s : Tele5State, s.hasRecorder = false →
      handleStop5 s = { s with camOn := false, recState := RecState.finished,
                               sessionComplete := true }) := by
  constructor
  · intro s hs
    unfold handleStopMain
    rw [if_pos hs]
  · intro s hs
    unfold handleStop5
    rw [if_pos hs]
    rfl

/-- Witness for C8 at concrete recorder-free states of both variants. -/
theorem claim_C8_witness :
    handleStopMain ⟨RecState.finished, 5000, 0, none, false, false, false, true, false⟩ =
      ⟨RecState.finished, 5000, 0, none, false, false, false, true, false⟩ ∧
    handleStop5 ⟨RecState.idle, 0, 0, none, false, true, false, false, false, false⟩ =
      ⟨RecState.finished, 0, 0, none, false, false, false, false, false, true⟩ :=
  ⟨claim_C8.1 _ rfl, claim_C8.2 ⟨RecState.idle, 0, 0, none, false, true, false, false,
    false, false⟩ rfl⟩

/-! ## Compositor: per-frame paint operations and canvas transforms

Only the horizontal component of the canvas transform matters for the mirror
feature, so a canvas transform is modelled as the affine map
`x ↦ sx * x + tx`. `ctx.translate(dx, 0)` and `ctx.scale(k, 1)` post-compose
the current transform as in the 2D canvas API. A frame is modelled as the list
of paint operations it issues, each tagged with the transform active when the
operation runs. -/

/-- Horizontal component of a 2D canvas transform. -/
structure Affine where
  sx : ℚ
  tx : ℚ
deriving DecidableEq

/-- Identity transform (the canvas default). -/
def Affine.ident : Affine := ⟨1, 0⟩

/-- Source `ctx.translate(dx, 0)`. -/
def Affine.translate (t : Affine) (dx : ℚ) : Affine := ⟨t.sx, t.sx * dx + t.tx⟩

/-- Source `ctx.scale(k, 1)`. -/
def Affine.scaleX (t : Affine) (k : ℚ) : Affine := ⟨t.sx * k, t.tx⟩

/-- Point mapping of the transform. -/
def Affine.apply (t : Affine) (x : ℚ) : ℚ := t.sx * x + t.tx

/-- Transform in effect for the body of part_005's `drawFrame` (lines 224-230):
after `ctx.save()`, mirror mode runs `ctx.translate(width, 0)` then
`ctx.scale(-1, 1)`; otherwise the transform stays the identity. -/
def frameTransform (mirror : Bool) (width : ℚ) : Affine :=
  if mirror then (Affine.ident.translate width).scaleX (-1) else Affine.ident

/-- Kinds of paint operations a teleprompter frame issues. -/
inductive PaintKind where
  | background
  | cameraImage
  | cameraBorder
  | frameBorder
  | highlightBar (i : Nat)
  | textLine (i : Nat)
deriving DecidableEq

/-- A paint operation together with the transform active when it runs. -/
structure PaintOp where
  kind : PaintKind
  tf : Affine
deriving DecidableEq

/-- Source `TeleSettings` of the main page (pages/teleprompter.tsx lines 25-31). -/
structure TeleSettingsMain where
  wpm : ℚ
  fontSize : ℚ
  lineHeight : ℚ
  mirror : Bool
  autoStart : Bool
deriving DecidableEq

/-- Paint operations of one frame of the main page's `drawFrame`
(pages/teleprompter.tsx lines 184-312): black background, then — when the
camera video is ready — the rounded-clipped camera image and its border, then
the visible script lines (highlight bar plus text for the current line, text
only for the rest). The function never installs a transform: `settings.mirror`
is not read anywhere in the draw (the mirror checkbox of this page is
informational only), so every operation runs under the identity transform. -/
def drawFrameMainOps (settings : TeleSettingsMain) (cameraReady : Bool)
    (width height : ℚ) (lines : List String) (currentLineIndex : Nat) : List PaintOp :=
  let base := Affine.ident
  let camOps := if cameraReady then
      [⟨PaintKind.cameraImage, base⟩, ⟨PaintKind.cameraBorder, base⟩] else []
  let margin : ℚ := 40
  let fontSize := settings.fontSize
  let lineGap := fontSize * settings.lineHeight
  let centerY := height / 2
  let startY := centerY - (currentLineIndex : ℚ) * lineGap - lineGap / 2
  let textOps := ((List.range lines.length).map fun i : Nat =>
    let y := startY + (i : ℚ) * lineGap
    if y < margin - lineGap ∨ height - margin + lineGap < y then []
    else if i = currentLineIndex then
      [⟨PaintKind.highlightBar i, base⟩, ⟨PaintKind.textLine i, base⟩]
    else [⟨PaintKind.textLine i, base⟩]).flatten
  ⟨PaintKind.background, base⟩ :: camOps ++ textOps

/-- Paint operations of one frame of part_005's `drawFrame` (lines 184-343):
after the optional mirror transform, the black background, the camera image
and border when ready (the camera clip runs inside its own save/restore, which
leaves the transform untouched), the thin frame border, then the visible
script lines. The effective font size shrinks (never below 14, never enlarged)
so the widest measured line fits the text width; `measure` stands for the
canvas's text measurement at the requested font size. Every operation runs
under the transform installed at the top of the frame. -/
def drawFrame5Ops (mirror cameraReady : Bool) (width height rawFontSize lineHeight : ℚ)
    (measure : String → ℚ) (lines : List String) (currentLineIndex : Nat) : List PaintOp :=
  let base := frameTransform mirror width
  let camOps := if cameraReady then
      [⟨PaintKind.cameraImage, base⟩, ⟨PaintKind.cameraBorder, base⟩] else []
  let margin : ℚ := 40
  let maxLineWidth := (lines.map measure).foldl max 0
  let maxAllowedWidth := width - margin * 2
  let effectiveFontSize :=
    if maxAllowedWidth < maxLineWidth ∧ 0 < maxLineWidth then
      max (14 : ℚ) ((Int.floor (rawFontSize * (maxAllowedWidth / maxLineWidth)) : ℤ) : ℚ)
    else rawFontSize
  let lineGap := effectiveFontSize * lineHeight
  let centerY := height / 2
  let startY := centerY - (currentLineIndex : ℚ) * lineGap - lineGap / 2
  let textOps := ((List.range lines.length).map fun i : Nat =>
    let y := startY + (i : ℚ) * lineGap
    if y < margin ∨ height - margin < y then []
    else if i = currentLineIndex then
      [⟨PaintKind.highlightBar i, base⟩, ⟨PaintKind.textLine i, base⟩]
    else [⟨PaintKind.textLine i, base⟩]).flatten
  ⟨PaintKind.background, base⟩ :: camOps ++ [⟨PaintKind.frameBorder, base⟩] ++ textOps

/-- Membership helper: every operation of a visibility-gated per-line emission
carries the transform it was built with. -/
theorem mem_ite_ops {op : PaintOp} {b : Affine} {c1 c2 : Prop}
    [Decidable c1] [Decidable c2] {k1 k2 k3 : PaintKind}
    (h : op ∈ if c1 then ([] : List PaintOp) else
      if c2 then [⟨k1, b⟩, ⟨k2, b⟩] else [⟨k3, b⟩]) : op.tf = b := by
  split at h
  · simp at h
  · split at h
    · rcases List.mem_cons.1 h with h1 | h1
      · rw [h1]
      · rcases List.mem_cons.1 h1 with h2 | h2
        · rw [h2]
        · simp at h2
    · rcases List.mem_cons.1 h with h1 | h1
      · rw [h1]
      · simp at h1

/-- Every operation of a main-page frame runs under the identity transform. -/
theorem drawFrameMainOps_tf_ident (settings : TeleSettingsMain) (cameraReady : Bool)
    (width height : ℚ) (lines : List String) (currentLineIndex : Nat) :
    (drawFrameMainOps settings cameraReady width height lines currentLineIndex).all
      (fun op => decide (op.tf = Affine.ident)) = true := by
  refine List.all_eq_true.2 ?_
  intro op hop
  simp only [decide_eq_true_eq]
  unfold drawFrameMainOps at hop
  rcases List.mem_cons.1 hop with h | hop1
  · rw [h]
  rcases List.mem_append.1 hop1 with h | h
  · rcases hc : cameraReady with _ | _ <;> rw [hc] at h
    · simp at h
    · rcases List.mem_cons.1 h with h1 | h1
      · rw [h1]
      · rcases List.mem_cons.1 h1 with h2 | h2
        · rw [h2]
        · simp at h2
  · obtain ⟨l, hl, hmem⟩ := List.mem_flatten.1 h
    obtain ⟨i, _, hli⟩ := List.mem_map.1 hl
    subst hli
    exact mem_ite_ops hmem

/-- Every operation of a part_005 frame runs under the frame transform chosen
by the mirror flag. -/
theorem drawFrame5Ops_tf (mirror cameraReady : Bool)
    (width height rawFontSize lineHeight : ℚ) (measure : String → ℚ)
    (lines : List String) (currentLineIndex : Nat) :
    (drawFrame5Ops mirror cameraReady width height rawFontSize lineHeight measure
        lines currentLineIndex).all
      (fun op => decide (op.tf = frameTransform mirror width)) = true := by
  refine List.all_eq_true.2 ?_
  intro op hop
  simp only [decide_eq_true_eq]
  unfold drawFrame5Ops at hop
  rcases List.mem_cons.1 hop with h | hop1
  · rw [h]
  rcases List.mem_append.1 hop1 with hcf | h
  · rcases List.mem_append.1 hcf with h | h
    · rcases hc : cameraReady with _ | _ <;> rw [hc] at h
      · simp at h
      · rcases List.mem_cons.1 h with h1 | h1
        · rw [h1]
        · rcases List.mem_cons.1 h1 with h2 | h2
          · rw [h2]
          · simp at h2
    · rcases List.mem_cons.1 h with h1 | h1
      · rw [h1]
      · simp at h1
  · obtain ⟨l, hl, hmem⟩ := List.mem_flatten.1 h
    obtain ⟨i, _, hli⟩ := List.mem_map.1 hl
    subst hli
    exact mem_ite_ops hmem

/-- Counterexample for C9: on the main page, a frame rendered with the mirror
setting enabled is identical to the frame with it disabled — at a concrete
configuration the emitted operations are exactly the unmirrored background,
camera image and border, highlight bar and text lines, all under the identity
transform, so neither the text nor the camera inset flips. -/
theorem claim_C9_counterexample :
    drawFrameMainOps ⟨105, 32, 1, true, false⟩ true 800 600 [("hello"), ("world")] 0 =
      drawFrameMainOps ⟨105, 32, 1, false, false⟩ true 800 600 [("hello"), ("world")] 0 ∧
    drawFrameMainOps ⟨105, 32, 1, true, false⟩ true 800 600 [("hello"), ("world")] 0 =
      [⟨PaintKind.background, Affine.ident⟩, ⟨PaintKind.cameraImage, Affine.ident⟩,
       ⟨PaintKind.cameraBorder, Affine.ident⟩, ⟨PaintKind.highlightBar 0, Affine.ident⟩,
       ⟨PaintKind.textLine 0, Affine.ident⟩, ⟨PaintKind.textLine 1, Affine.ident⟩] := by
  refine ⟨rfl, ?_⟩
  norm_num [drawFrameMainOps, List.range_succ]

/-- Claim C9 as amended: in the part_005 (and part_004) full-screen variant,
enabling mirror installs the reflection `x ↦ width − x` for the entire
remaining draw, so every operation of the frame — script text and camera
picture-in-picture alike — renders under that same reflection (and under the
identity when mirror is off); in the main page, the mirror setting does not
affect rendering at all: the frame is identical with it on or off and always
runs under the identity transform. -/
theorem claim_C9 :
    (∀ width x : ℚ, (frameTransform true width).apply x = width - x ∧
      (frameTransform false width).apply x = x) ∧
    (∀ (mirror cameraReady : Bool) (width height rawFontSize lineHeight : ℚ)
      (measure : String → ℚ) (lines : List String) (currentLineIndex : Nat),
      (drawFrame5Ops mirror cameraReady width height rawFontSize lineHeight measure
          lines currentLineIndex).all
        (fun op => decide (op.tf = frameTransform mirror width)) = true) ∧
    (∀ (settings : TeleSettingsMain) (cameraReady : Bool) (width height : ℚ)
      (lines : List String) (currentLineIndex : Nat),
      drawFrameMainOps { settings with mirror := true } cameraReady width height
          lines currentLineIndex =
        drawFrameMainOps { settings with mirror := false } cameraReady width height
          lines currentLineIndex ∧
      (drawFrameMainOps settings cameraReady width height lines currentLineIndex).all
        (fun op => decide (op.tf = Affine.ident)) = true) := by
  refine ⟨?_, drawFrame5Ops_tf, ?_⟩
  · intro width x
    constructor
    · show (1 * -1) * x + (1 * width + 0) = width - x
      ring
    · show 1 * x + 0 = x
      ring
  · intro settings cameraReady width height lines currentLineIndex
    exact ⟨rfl, drawFrameMainOps_tf_ident settings cameraReady width height lines
      currentLineIndex⟩

/-! ## Remote control channel (part_004, `bc.onmessage`, lines 137-161)

The numeric payload `m.value` is modelled as `Option ℚ`: `none` for an absent
field and `some 0` for the falsy number 0; `x || y` on numbers is `truthyOr`. -/

/-- JS `m.value || dflt`: the default wins when the payload is absent or 0. -/
def truthyOr (value : Option ℚ) (dflt : ℚ) : ℚ :=
  match value with
  | none => dflt
  | some x => if x = 0 then dflt else x

/-- The `fontSize` state of part_004: a pixel number or the "fit" sentinel. -/
inductive FontSetting where
  | fit
  | px (n : ℚ)
deriving DecidableEq

/-- Source handler of a "speed" message:
`setWpm((v) => Math.max(20, Math.min(260, m.value || v)))`. -/
def remoteSpeed (value : Option ℚ) (wpm : ℚ) : ℚ :=
  max 20 (min 260 (truthyOr value wpm))

/-- Source handler of a "font" message: `setFontSize((v) => Math.max(28,
Math.min(96, m.value || (typeof v === "number" ? v : 48))))`. -/
def remoteFont (value : Option ℚ) (fontSize : FontSetting) : FontSetting :=
  FontSetting.px (max 28 (min 96 (truthyOr value
    (match fontSize with
     | FontSetting.px n => n
     | FontSetting.fit => 48))))

/-- Source handler of a "pip" message:
`setPipPct((v) => Math.max(10, Math.min(35, m.value || v)))`. -/
def remotePip (value : Option ℚ) (pipPct : ℚ) : ℚ :=
  max 10 (min 35 (truthyOr value pipPct))

/-- A falsy payload helper used below. -/
theorem truthyOr_falsy (v : Option ℚ) (d : ℚ) (h : v = none ∨ v = some 0) :
    truthyOr v d = d := by
  rcases h with h | h <;> subst h <;> simp [truthyOr]

/-- Counterexample for C10: a "font" command with an absent or zero payload
does not leave the fontSize setting unchanged when it is the "fit" sentinel —
it replaces "fit" (the page's initial value) with the fixed number 48. -/
theorem claim_C10_counterexample :
    remoteFont none FontSetting.fit = FontSetting.px 48 ∧
    remoteFont (some 0) FontSetting.fit = FontSetting.px 48 ∧
    FontSetting.px 48 ≠ FontSetting.fit :=
  ⟨rfl, rfl, by decide⟩

/-- Claim C10 as amended: a "speed" or "pip" command with a falsy payload
leaves the setting unchanged whenever it lies in the documented range
(20-260 and 10-35), and likewise a "font" command when fontSize is a number in
28-96; but when fontSize is the "fit" sentinel a falsy "font" command replaces
it with 48. A truthy payload is clamped and applied. -/
theorem claim_C10 :
    (∀ (v : Option ℚ) (wpm : ℚ), v = none ∨ v = some 0 → 20 ≤ wpm → wpm ≤ 260 →
      remoteSpeed v wpm = wpm) ∧
    (∀ (v : Option ℚ) (pipPct : ℚ), v = none ∨ v = some 0 → 10 ≤ pipPct → pipPct ≤ 35 →
      remotePip v pipPct = pipPct) ∧
    (∀ (v : Option ℚ) (n : ℚ), v = none ∨ v = some 0 → 28 ≤ n → n ≤ 96 →
      remoteFont v (FontSetting.px n) = FontSetting.px n) ∧
    (∀ v : Option ℚ, v = none ∨ v = some 0 →
      remoteFont v FontSetting.fit = FontSetting.px 48) ∧
    (∀ x wpm : ℚ, ¬x = 0 → remoteSpeed (some x) wpm = max 20 (min 260 x)) := by
  refine ⟨?_, ?_, ?_, ?_, ?_⟩
  · intro v wpm hv h1 h2
    rw [remoteSpeed, truthyOr_falsy v wpm hv, min_eq_right h2, max_eq_right h1]
  · intro v pipPct hv h1 h2
    rw [remotePip, truthyOr_falsy v pipPct hv, min_eq_right h2, max_eq_right h1]
  · intro v n hv h1 h2
    rw [remoteFont, truthyOr_falsy v n hv, min_eq_right h2, max_eq_right h1]
  · intro v hv
    rw [remoteFont, truthyOr_falsy v 48 hv]
    norm_num
  · intro x wpm hx
    rw [remoteSpeed]
    show max 20 (min 260 (if x = 0 then wpm else x)) = max 20 (min 260 x)
    rw [if_neg hx]

/-- Witness for C10 at concrete payloads and settings. -/
theorem claim_C10_witness :
    ((some 0 : Option ℚ) = none ∨ (some 0 : Option ℚ) = some 0) ∧
    (20 : ℚ) ≤ 105 ∧ (105 : ℚ) ≤ 260 ∧ remoteSpeed (some 0) 105 = 105 ∧
    (10 : ℚ) ≤ 18 ∧ (18 : ℚ) ≤ 35 ∧ remotePip (some 0) 18 = 18 ∧
    (28 : ℚ) ≤ 48 ∧ (48 : ℚ) ≤ 96 ∧
    remoteFont (some 0) (FontSetting.px 48) = FontSetting.px 48 ∧
    remoteFont (some 0) FontSetting.fit = FontSetting.px 48 ∧
    ¬(120 : ℚ) = 0 ∧ remoteSpeed (some 120) 105 = max 20 (min 260 120) :=
  ⟨Or.inr rfl, by norm_num, by norm_num,
   claim_C10.1 (some 0) 105 (Or.inr rfl) (by norm_num) (by norm_num),
   by norm_num, by norm_num,
   claim_C10.2.1 (some 0) 18 (Or.inr rfl) (by norm_num) (by norm_num),
   by norm_num, by norm_num,
   claim_C10.2.2.1 (some 0) 48 (Or.inr rfl) (by norm_num) (by norm_num),
   claim_C10.2.2.2.1 (some 0) (Or.inr rfl),
   by norm_num,
   claim_C10.2.2.2.2 120 105 (by norm_num)⟩

end TfmWeb
